import Mathlib

/-!
Verification of the failover request buffer subsystem and the two
auxiliary files of this repository:

* `go/vt/vtgate/buffer/variables.go` — statistics counters and reason
  label enumerations of the request buffer (namespace `buffer`);
* `go/vt/workflow/keyspaceresharding/workflow.go` — checkpoint
  initialization for the keyspace resharding workflow
  (namespace `keyspaceresharding`);
* the action-node descriptor file (package `actionnode`) — JSON
  decoding of action nodes and the purge/staleness predicates
  (namespace `actionnode`).

The `ShardBuffer` state machine itself is not among the provided source
files; a model of it, written from the specification document, lives in
namespace `buffer.model`.
-/

namespace buffer

/-- MultiCounter mirrors a `stats.NewMultiCounters` declaration: the
exported name of the counter together with its ordered label names.
Help strings are elided as they carry no semantic content. -/
structure MultiCounter where
  name : String
  labels : List String
deriving DecidableEq, Repr

/-- Counter `starts` from variables.go. -/
def starts : MultiCounter := ⟨"BufferStarts", ["Keyspace", "ShardName"]⟩

/-- Counter `stops` from variables.go. -/
def stops : MultiCounter := ⟨"BufferStops", ["Keyspace", "ShardName", "Reason"]⟩

/-- Counter `failoverDurationSumMs` from variables.go. -/
def failoverDurationSumMs : MultiCounter :=
  ⟨"BufferFailoverDurationSumMs", ["Keyspace", "ShardName"]⟩

/-- Counter `utilizationSum` from variables.go. -/
def utilizationSum : MultiCounter :=
  ⟨"BufferUtilizationSum", ["Keyspace", "ShardName"]⟩

/-- Counter `utilizationDryRunSum` from variables.go. -/
def utilizationDryRunSum : MultiCounter :=
  ⟨"BufferUtilizationDryRunSum", ["Keyspace", "ShardName"]⟩

/-- Counter `requestsBuffered` from variables.go. -/
def requestsBuffered : MultiCounter :=
  ⟨"BufferRequestsBuffered", ["Keyspace", "ShardName"]⟩

/-- Counter `requestsBufferedDryRun` from variables.go. -/
def requestsBufferedDryRun : MultiCounter :=
  ⟨"BufferRequestsBufferedDryRun", ["Keyspace", "ShardName"]⟩

/-- Counter `requestsDrained` from variables.go. -/
def requestsDrained : MultiCounter :=
  ⟨"BufferRequestsDrained", ["Keyspace", "ShardName"]⟩

/-- Counter `requestsEvicted` from variables.go. -/
def requestsEvicted : MultiCounter :=
  ⟨"BufferRequestsEvicted", ["Keyspace", "ShardName", "Reason"]⟩

/-- Counter `requestsSkipped` from variables.go. -/
def requestsSkipped : MultiCounter :=
  ⟨"BufferRequestsSkipped", ["Keyspace", "ShardName", "Reason"]⟩

/-- Counter `lastFailoverDurationMs` from the gauge block of variables.go. -/
def lastFailoverDurationMs : MultiCounter :=
  ⟨"BufferLastFailoverDurationMs", ["Keyspace", "ShardName"]⟩

/-- Counter `lastRequestsInFlightMax` from the gauge block of variables.go. -/
def lastRequestsInFlightMax : MultiCounter :=
  ⟨"BufferLastRequestsInFlightMax", ["Keyspace", "ShardName"]⟩

/-- Counter `lastRequestsDryRunMax` from the gauge block of variables.go. -/
def lastRequestsDryRunMax : MultiCounter :=
  ⟨"BufferLastRequestsDryRunMax", ["Keyspace", "ShardName"]⟩

/-- Every `stats.NewMultiCounters` declaration in variables.go, in file
order. (`bufferSize` is a plain `stats.NewInt` gauge with no labels and
so is not a multi-label counter.) -/
def allBufferMultiCounters : List MultiCounter :=
  [starts, stops, failoverDurationSumMs, utilizationSum, utilizationDryRunSum,
   requestsBuffered, requestsBufferedDryRun, requestsDrained,
   requestsEvicted, requestsSkipped,
   lastFailoverDurationMs, lastRequestsInFlightMax, lastRequestsDryRunMax]

/-- Constant `stopFailoverEndDetected` (`stopReason` is a string type in
the source). -/
def stopFailoverEndDetected : String := "NewMasterSeen"

/-- Constant `stopMaxFailoverDurationExceeded`. -/
def stopMaxFailoverDurationExceeded : String := "MaxDurationExceeded"

/-- Constant `stopShutdown`. -/
def stopShutdown : String := "Shutdown"

/-- Slice `stopReasons` from variables.go. -/
def stopReasons : List String :=
  [stopFailoverEndDetected, stopMaxFailoverDurationExceeded, stopShutdown]

/-- Constant `evictedContextDone`. -/
def evictedContextDone : String := "ContextDone"

/-- Constant `evictedBufferFull`. -/
def evictedBufferFull : String := "BufferFull"

/-- Constant `evictedWindowExceeded`. -/
def evictedWindowExceeded : String := "WindowExceeded"

/-- Slice `evictReasons` from variables.go. -/
def evictReasons : List String :=
  [evictedContextDone, evictedBufferFull, evictedWindowExceeded]

/-- Constant `skippedBufferFull`. -/
def skippedBufferFull : String := "BufferFull"

/-- Constant `skippedDisabled`. -/
def skippedDisabled : String := "Disabled"

/-- Constant `skippedShutdown`. -/
def skippedShutdown : String := "Shutdown"

/-- Constant `skippedLastReparentTooRecent`. -/
def skippedLastReparentTooRecent : String := "LastReparentTooRecent"

/-- Constant `skippedLastFailoverTooRecent`. -/
def skippedLastFailoverTooRecent : String := "LastFailoverTooRecent"

/-- Slice `skippedReasons` from variables.go. -/
def skippedReasons : List String :=
  [skippedBufferFull, skippedDisabled, skippedShutdown,
   skippedLastReparentTooRecent, skippedLastFailoverTooRecent]

/-- StatsState models the mutable state of the statistics sink: for each
counter name and each label-value vector, either `none` (never set, the
NaN situation described in the comment of `initVariablesForShard`) or the
stored value. -/
def StatsState : Type := String → List String → Option Int

/-- setCounter models `counter.Set(key, v)` on the statistics sink. -/
def setCounter (s : StatsState) (counter : String) (key : List String)
    (v : Int) : StatsState :=
  fun c k => if c = counter ∧ k = key then some v else s c k

/-- initVariablesForShard from variables.go: sets every per-shard counter
to 0, following the source statement order; the loops over the reason
slices append the reason to the stats key (`append(statsKey, reason)`). -/
def initVariablesForShard (statsKey : List String) (s : StatsState) : StatsState :=
  let s1 := setCounter s starts.name statsKey 0
  let s2 := stopReasons.foldl
    (fun acc reason => setCounter acc stops.name (statsKey ++ [reason]) 0) s1
  let s3 := setCounter s2 failoverDurationSumMs.name statsKey 0
  let s4 := setCounter s3 utilizationSum.name statsKey 0
  let s5 := setCounter s4 utilizationDryRunSum.name statsKey 0
  let s6 := setCounter s5 requestsBuffered.name statsKey 0
  let s7 := setCounter s6 requestsBufferedDryRun.name statsKey 0
  let s8 := setCounter s7 requestsDrained.name statsKey 0
  let s9 := evictReasons.foldl
    (fun acc reason => setCounter acc requestsEvicted.name (statsKey ++ [reason]) 0) s8
  skippedReasons.foldl
    (fun acc reason => setCounter acc requestsSkipped.name (statsKey ++ [reason]) 0) s9

/-- initKeys enumerates, in the order `initVariablesForShard` writes them,
the (counter name, label key) pairs that the function initializes. -/
def initKeys (statsKey : List String) : List (String × List String) :=
  [(starts.name, statsKey)]
    ++ stopReasons.map (fun r => (stops.name, statsKey ++ [r]))
    ++ [(failoverDurationSumMs.name, statsKey),
        (utilizationSum.name, statsKey),
        (utilizationDryRunSum.name, statsKey),
        (requestsBuffered.name, statsKey),
        (requestsBufferedDryRun.name, statsKey),
        (requestsDrained.name, statsKey)]
    ++ evictReasons.map (fun r => (requestsEvicted.name, statsKey ++ [r]))
    ++ skippedReasons.map (fun r => (requestsSkipped.name, statsKey ++ [r]))

theorem foldl_setCounter_lookup (entries : List (String × List String))
    (s : StatsState) (c : String) (k : List String) :
    (entries.foldl (fun acc e => setCounter acc e.1 e.2 0) s) c k
      = if (c, k) ∈ entries then some 0 else s c k := by
  induction entries generalizing s with
  | nil => simp
  | cons e rest ih =>
    rw [List.foldl_cons, ih]
    by_cases hmem : (c, k) ∈ rest
    · simp [hmem]
    · by_cases he : (c, k) = e
      · obtain ⟨h1, h2⟩ := Prod.mk.injEq .. ▸ he
        simp [hmem, he, setCounter, h1, h2]
      · have : ¬(c = e.1 ∧ k = e.2) := by
          intro ⟨h1, h2⟩
          exact he (by cases e; simp_all)
        simp [hmem, he, setCounter, this]

theorem initVariablesForShard_as_foldl (statsKey : List String) (s : StatsState) :
    initVariablesForShard statsKey s
      = (initKeys statsKey).foldl (fun acc e => setCounter acc e.1 e.2 0) s := by
  simp [initVariablesForShard, initKeys, stopReasons, evictReasons, skippedReasons,
    List.foldl_append]

/-- C1: the stop reasons are exactly NewMasterSeen, MaxDurationExceeded,
Shutdown; the eviction reasons exactly ContextDone, BufferFull,
WindowExceeded; the skip reasons exactly BufferFull, Disabled, Shutdown,
LastReparentTooRecent, LastFailoverTooRecent; and the declared slices
`stopReasons`, `evictReasons` and `skippedReasons` enumerate each set
completely and without duplicates. -/
theorem reason_enumerations_exact :
    stopReasons = ["NewMasterSeen", "MaxDurationExceeded", "Shutdown"]
      ∧ stopReasons.Nodup
      ∧ evictReasons = ["ContextDone", "BufferFull", "WindowExceeded"]
      ∧ evictReasons.Nodup
      ∧ skippedReasons = ["BufferFull", "Disabled", "Shutdown",
          "LastReparentTooRecent", "LastFailoverTooRecent"]
      ∧ skippedReasons.Nodup := by
  decide

/-- C6: every buffer multi-counter is keyed by Keyspace and ShardName, and
exactly the stop/eviction/skip counters (`stops`, `requestsEvicted`,
`requestsSkipped`) carry the additional Reason label; every other buffer
counter carries only the two labels Keyspace and ShardName. -/
theorem counter_labels_exact :
    allBufferMultiCounters.filter
        (fun c => !(c.labels = ["Keyspace", "ShardName"] : Bool))
      = [stops, requestsEvicted, requestsSkipped]
    ∧ stops.labels = ["Keyspace", "ShardName", "Reason"]
    ∧ requestsEvicted.labels = ["Keyspace", "ShardName", "Reason"]
    ∧ requestsSkipped.labels = ["Keyspace", "ShardName", "Reason"]
    ∧ starts.labels = ["Keyspace", "ShardName"]
    ∧ failoverDurationSumMs.labels = ["Keyspace", "ShardName"]
    ∧ utilizationSum.labels = ["Keyspace", "ShardName"]
    ∧ utilizationDryRunSum.labels = ["Keyspace", "ShardName"]
    ∧ requestsBuffered.labels = ["Keyspace", "ShardName"]
    ∧ requestsBufferedDryRun.labels = ["Keyspace", "ShardName"]
    ∧ requestsDrained.labels = ["Keyspace", "ShardName"]
    ∧ (allBufferMultiCounters.map (fun c => c.labels.take 2)).all
        (fun l => l = ["Keyspace", "ShardName"]) := by
  decide

/-- C8: `initVariablesForShard [ks, shard]` sets to 0 exactly the counters
at the 18 label sets enumerated by `initKeys [ks, shard]` — the seven
two-label counters at (ks, shard) and the three reason-labelled counters
at (ks, shard, reason) for every declared reason (3 stop, 3 eviction and
5 skip reasons) — and leaves every other counter/label-set untouched. -/
theorem initVariablesForShard_exact (ks shard : String) (s : StatsState)
    (c : String) (k : List String) :
    initVariablesForShard [ks, shard] s c k
      = (if (c, k) ∈ initKeys [ks, shard] then some 0 else s c k)
    ∧ (initKeys [ks, shard]).length = 18 := by
  refine ⟨?_, by rfl⟩
  rw [initVariablesForShard_as_foldl, foldl_setCounter_lookup]

end buffer

namespace keyspaceresharding

/-- Constant `phaseName` from workflow.go. -/
def phaseName : String := "create_workflows"

/-- Constant `codeVersion` from workflow.go. -/
def codeVersion : Int := 1

/-- TaskState mirrors `workflowpb.TaskState`; only `TaskNotStarted` is
used by this file. -/
inductive TaskState where
  | TaskNotStarted
  | TaskRunning
  | TaskDone
deriving DecidableEq, Repr

/-- Task mirrors `workflowpb.Task`: id, state and the string attribute
map (modelled as an association list). -/
structure Task where
  id : String
  state : TaskState
  attributes : List (String × String)
deriving DecidableEq, Repr

/-- WorkflowCheckpoint mirrors `workflowpb.WorkflowCheckpoint`. The Go
`Tasks` map has the distinct keys `create_workflows/i`; it is modelled
as the list of tasks in index order (each task's `id` field equals its
map key). `Settings` is an association list. -/
structure WorkflowCheckpoint where
  codeVersion : Int
  tasks : List Task
  settings : List (String × String)
deriving DecidableEq, Repr

/-- digitsToNat interprets a non-empty, all-digit character list as a
decimal natural number (`none` otherwise). -/
def digitsToNat (cs : List Char) : Option Nat :=
  if cs = [] then none
  else cs.foldl
    (fun acc c => acc.bind
      (fun n => if c.isDigit then some (n * 10 + (c.toNat - 48)) else none))
    (some 0)

/-- Atoi models Go `strconv.Atoi`: an optional single sign followed by at
least one decimal digit, erroring when the value does not fit a signed
64-bit integer (`strconv.ErrRange`). -/
def Atoi (s : String) : Option Int :=
  match s.data with
  | [] => none
  | c :: rest =>
    let signDigits : Bool × List Char :=
      if c = '-' then (true, rest)
      else if c = '+' then (false, rest)
      else (false, c :: rest)
    match digitsToNat signDigits.2 with
    | none => none
    | some n =>
      let v : Int := if signDigits.1 then -(n : Int) else (n : Int)
      if v < -(2 ^ 63) ∨ (2 ^ 63 - 1 : Int) < v then none else some v

/-- buildTasks mirrors the task-construction loop of `initCheckpoint`:
task `i` gets id `create_workflows/i` and its `vtworkers` attribute is
the comma-join of `vtworkers[usedVtworkersIdx : usedVtworkersIdx +
len(shardToSplit[1])]`; the index advances by the destination-shard
count of each element. Each `shardToSplit` is the (source shards,
destination shards) pair the caller builds. -/
def buildTasks (vtworkers : List String)
    (shardsToSplit : List (List String × List String))
    (i usedVtworkersIdx : Nat) : List Task :=
  match shardsToSplit with
  | [] => []
  | shardToSplit :: rest =>
    { id := phaseName ++ "/" ++ toString i,
      state := TaskState.TaskNotStarted,
      attributes :=
        [("source_shards", String.intercalate "," shardToSplit.1),
         ("destination_shards", String.intercalate "," shardToSplit.2),
         ("vtworkers", String.intercalate ","
            ((vtworkers.drop usedVtworkersIdx).take shardToSplit.2.length))] }
      :: buildTasks vtworkers rest (i + 1) (usedVtworkersIdx + shardToSplit.2.length)

/-- initCheckpoint from workflow.go. Each element of `shardsToSplit` is
the pair (source shards, destination shards); the Go value is a
`[][][]string` whose elements always have exactly two members. Error
messages follow the source `fmt.Errorf` calls. -/
def initCheckpoint (keyspace : String) (vtworkers : List String)
    (shardsToSplit : List (List String × List String))
    (minHealthyRdonlyTablets splitCmd splitDiffDestTabletType
      phaseEnableApprovals : String)
    (skipStartWorkflows : Bool) : Except String WorkflowCheckpoint :=
  let counts := shardsToSplit.foldl
    (fun acc shardToSplit =>
      (acc.1 + shardToSplit.1.length, acc.2 + shardToSplit.2.length))
    ((0 : Nat), (0 : Nat))
  if counts.1 = 0 ∨ counts.2 = 0 then
    Except.error "invalid source or destination shards"
  else if ¬(vtworkers.length = counts.2) then
    Except.error ("there are " ++ toString vtworkers.length ++ " vtworkers, "
      ++ toString counts.2 ++ " destination shards: the number should be same")
  else
    match Atoi minHealthyRdonlyTablets with
    | none =>
      Except.error ("there are not enough rdonly tablets in source shards. You need at least "
        ++ toString (counts.2 / counts.1) ++ ", it got: " ++ minHealthyRdonlyTablets)
    | some minHealthyRdonlyTabletsVal =>
      if minHealthyRdonlyTabletsVal < ((counts.2 / counts.1 : Nat) : Int) then
        Except.error ("there are not enough rdonly tablets in source shards. You need at least "
          ++ toString (counts.2 / counts.1) ++ ", it got: " ++ minHealthyRdonlyTablets)
      else
        Except.ok
          { codeVersion := codeVersion,
            tasks := buildTasks vtworkers shardsToSplit 0 0,
            settings :=
              [("vtworkers", String.intercalate "," vtworkers),
               ("min_healthy_rdonly_tablets", minHealthyRdonlyTablets),
               ("split_cmd", splitCmd),
               ("split_diff_dest_tablet_type", splitDiffDestTabletType),
               ("phase_enable_approvals", phaseEnableApprovals),
               ("skip_start_workflows", if skipStartWorkflows then "true" else "false"),
               ("workflows_count", toString shardsToSplit.length),
               ("keyspace", keyspace)] }

/-- chunksOf splits a list into consecutive chunks of the given sizes
(`ws[0:n0], ws[n0:n0+n1], ...`). -/
def chunksOf (ws : List String) (sizes : List Nat) : List (List String) :=
  match sizes with
  | [] => []
  | n :: rest => ws.take n :: chunksOf (ws.drop n) rest

theorem chunksOf_flatten (ws : List String) (sizes : List Nat)
    (h : sizes.sum = ws.length) : (chunksOf ws sizes).flatten = ws := by
  induction sizes generalizing ws with
  | nil =>
    have : ws.length = 0 := h.symm
    simp [chunksOf, List.eq_nil_of_length_eq_zero this]
  | cons n rest ih =>
    have hlen : rest.sum = (ws.drop n).length := by
      simp only [List.sum_cons] at h
      simp [List.length_drop]
      omega
    simp [chunksOf, ih (ws.drop n) hlen]

theorem counts_foldl (shards : List (List String × List String)) (a b : Nat) :
    shards.foldl
        (fun acc shardToSplit =>
          (acc.1 + shardToSplit.1.length, acc.2 + shardToSplit.2.length)) (a, b)
      = (a + (shards.map fun p => p.1.length).sum,
         b + (shards.map fun p => p.2.length).sum) := by
  induction shards generalizing a b with
  | nil => simp
  | cons p rest ih =>
    simp only [List.foldl_cons, ih, List.map_cons, List.sum_cons]
    rw [Prod.mk.injEq]
    constructor <;> omega

theorem buildTasks_length (vtw : List String)
    (shards : List (List String × List String)) (i idx : Nat) :
    (buildTasks vtw shards i idx).length = shards.length := by
  induction shards generalizing i idx with
  | nil => simp [buildTasks]
  | cons p rest ih => simp [buildTasks, ih]

theorem buildTasks_lookup_vtworkers (vtw : List String)
    (shards : List (List String × List String)) (i idx : Nat) :
    (buildTasks vtw shards i idx).map (fun t => List.lookup "vtworkers" t.attributes)
      = (chunksOf (vtw.drop idx) (shards.map fun p => p.2.length)).map
          (fun c => some (String.intercalate "," c)) := by
  induction shards generalizing i idx with
  | nil => simp [buildTasks, chunksOf]
  | cons p rest ih =>
    simp only [buildTasks, List.map_cons, chunksOf]
    refine congrArg₂ List.cons rfl ?_
    rw [ih (i + 1) (idx + p.2.length), List.drop_drop, Nat.add_comm]

/-- C9: `initCheckpoint` returns an error iff the total source-shard or
destination-shard count over `shardsToSplit` is 0, or the vtworker count
differs from the total destination-shard count, or
`minHealthyRdonlyTablets` fails integer parsing or parses below
destShards/sourceShards (integer division); on success the checkpoint has
exactly one task per element of `shardsToSplit`, the tasks' `vtworkers`
attributes are the comma-joins of the consecutive chunks of the vtworkers
list sized by each element's destination-shard count, those chunks
concatenate (in task-index order) back to the whole vtworkers list, and
`Settings["workflows_count"]` is the decimal rendering of
`len(shardsToSplit)`. -/
theorem initCheckpoint_exact (keyspace : String) (vtworkers : List String)
    (shardsToSplit : List (List String × List String))
    (minHealthyRdonlyTablets splitCmd splitDiffDestTabletType
      phaseEnableApprovals : String)
    (skipStartWorkflows : Bool) :
    ((∃ e, initCheckpoint keyspace vtworkers shardsToSplit minHealthyRdonlyTablets
          splitCmd splitDiffDestTabletType phaseEnableApprovals skipStartWorkflows
        = Except.error e)
      ↔ ((shardsToSplit.map fun p => p.1.length).sum = 0
          ∨ (shardsToSplit.map fun p => p.2.length).sum = 0
          ∨ vtworkers.length ≠ (shardsToSplit.map fun p => p.2.length).sum
          ∨ Atoi minHealthyRdonlyTablets = none
          ∨ ∃ v, Atoi minHealthyRdonlyTablets = some v
              ∧ v < (((shardsToSplit.map fun p => p.2.length).sum
                      / (shardsToSplit.map fun p => p.1.length).sum : Nat) : Int)))
    ∧ (initCheckpoint keyspace vtworkers shardsToSplit minHealthyRdonlyTablets
          splitCmd splitDiffDestTabletType phaseEnableApprovals skipStartWorkflows).map
        (fun cp => cp.tasks.length)
      = (initCheckpoint keyspace vtworkers shardsToSplit minHealthyRdonlyTablets
          splitCmd splitDiffDestTabletType phaseEnableApprovals skipStartWorkflows).map
        (fun _ => shardsToSplit.length)
    ∧ (initCheckpoint keyspace vtworkers shardsToSplit minHealthyRdonlyTablets
          splitCmd splitDiffDestTabletType phaseEnableApprovals skipStartWorkflows).map
        (fun cp => cp.tasks.map fun t => List.lookup "vtworkers" t.attributes)
      = (initCheckpoint keyspace vtworkers shardsToSplit minHealthyRdonlyTablets
          splitCmd splitDiffDestTabletType phaseEnableApprovals skipStartWorkflows).map
        (fun _ => (chunksOf vtworkers (shardsToSplit.map fun p => p.2.length)).map
          (fun c => some (String.intercalate "," c)))
    ∧ (initCheckpoint keyspace vtworkers shardsToSplit minHealthyRdonlyTablets
          splitCmd splitDiffDestTabletType phaseEnableApprovals skipStartWorkflows).map
        (fun _ => (chunksOf vtworkers (shardsToSplit.map fun p => p.2.length)).flatten)
      = (initCheckpoint keyspace vtworkers shardsToSplit minHealthyRdonlyTablets
          splitCmd splitDiffDestTabletType phaseEnableApprovals skipStartWorkflows).map
        (fun _ => vtworkers)
    ∧ (initCheckpoint keyspace vtworkers shardsToSplit minHealthyRdonlyTablets
          splitCmd splitDiffDestTabletType phaseEnableApprovals skipStartWorkflows).map
        (fun cp => List.lookup "workflows_count" cp.settings)
      = (initCheckpoint keyspace vtworkers shardsToSplit minHealthyRdonlyTablets
          splitCmd splitDiffDestTabletType phaseEnableApprovals skipStartWorkflows).map
        (fun _ => some (toString shardsToSplit.length)) := by
  have hc := counts_foldl shardsToSplit 0 0
  simp only [Nat.zero_add] at hc
  by_cases h1 : (shardsToSplit.map fun p => p.1.length).sum = 0
      ∨ (shardsToSplit.map fun p => p.2.length).sum = 0
  · have hres : initCheckpoint keyspace vtworkers shardsToSplit minHealthyRdonlyTablets
        splitCmd splitDiffDestTabletType phaseEnableApprovals skipStartWorkflows
        = Except.error "invalid source or destination shards" := by
      simp only [initCheckpoint, hc]
      rw [if_pos (by simpa using h1)]
    refine ⟨⟨fun _ => ?_, fun _ => ⟨_, hres⟩⟩, by rw [hres]; rfl, by rw [hres]; rfl,
      by rw [hres]; rfl, by rw [hres]; rfl⟩
    rcases h1 with h1 | h1
    · exact Or.inl h1
    · exact Or.inr (Or.inl h1)
  · by_cases h2 : vtworkers.length = (shardsToSplit.map fun p => p.2.length).sum
    · rcases hA : Atoi minHealthyRdonlyTablets with _ | v
      · have hres : initCheckpoint keyspace vtworkers shardsToSplit
            minHealthyRdonlyTablets splitCmd splitDiffDestTabletType
            phaseEnableApprovals skipStartWorkflows
            = Except.error ("there are not enough rdonly tablets in source shards. You need at least "
                ++ toString ((shardsToSplit.map fun p => p.2.length).sum
                      / (shardsToSplit.map fun p => p.1.length).sum)
                ++ ", it got: " ++ minHealthyRdonlyTablets) := by
          simp only [initCheckpoint, hc, hA]
          rw [if_neg (by simpa using h1), if_neg (by simpa using h2)]
        exact ⟨⟨fun _ => Or.inr (Or.inr (Or.inr (Or.inl rfl))), fun _ => ⟨_, hres⟩⟩,
          by rw [hres]; rfl, by rw [hres]; rfl, by rw [hres]; rfl, by rw [hres]; rfl⟩
      · by_cases h4 : v < (((shardsToSplit.map fun p => p.2.length).sum
            / (shardsToSplit.map fun p => p.1.length).sum : Nat) : Int)
        · have hres : initCheckpoint keyspace vtworkers shardsToSplit
              minHealthyRdonlyTablets splitCmd splitDiffDestTabletType
              phaseEnableApprovals skipStartWorkflows
              = Except.error ("there are not enough rdonly tablets in source shards. You need at least "
                  ++ toString ((shardsToSplit.map fun p => p.2.length).sum
                        / (shardsToSplit.map fun p => p.1.length).sum)
                  ++ ", it got: " ++ minHealthyRdonlyTablets) := by
            simp only [initCheckpoint, hc, hA]
            rw [if_neg (by simpa using h1), if_neg (by simpa using h2),
              if_pos (by simpa using h4)]
          exact ⟨⟨fun _ => Or.inr (Or.inr (Or.inr (Or.inr ⟨v, rfl, h4⟩))),
              fun _ => ⟨_, hres⟩⟩,
            by rw [hres]; rfl, by rw [hres]; rfl, by rw [hres]; rfl, by rw [hres]; rfl⟩
        · have hres : initCheckpoint keyspace vtworkers shardsToSplit
              minHealthyRdonlyTablets splitCmd splitDiffDestTabletType
              phaseEnableApprovals skipStartWorkflows
              = Except.ok
                { codeVersion := codeVersion,
                  tasks := buildTasks vtworkers shardsToSplit 0 0,
                  settings :=
                    [("vtworkers", String.intercalate "," vtworkers),
                     ("min_healthy_rdonly_tablets", minHealthyRdonlyTablets),
                     ("split_cmd", splitCmd),
                     ("split_diff_dest_tablet_type", splitDiffDestTabletType),
                     ("phase_enable_approvals", phaseEnableApprovals),
                     ("skip_start_workflows", if skipStartWorkflows then "true" else "false"),
                     ("workflows_count", toString shardsToSplit.length),
                     ("keyspace", keyspace)] } := by
            simp only [initCheckpoint, hc, hA]
            rw [if_neg (by simpa using h1), if_neg (by simpa using h2),
              if_neg (by simpa using h4)]
          push_neg at h1
          refine ⟨⟨fun ⟨e, he⟩ => ?_, fun hcond => ?_⟩, ?_, ?_, ?_, ?_⟩
          · rw [hres] at he
            exact absurd he (by simp)
          · rcases hcond with h | h | h | h | ⟨v', hv', hlt⟩
            · exact absurd h h1.1
            · exact absurd h h1.2
            · exact absurd h2 h
            · exact Option.noConfusion h
            · have hvv := Option.some.inj hv'
              subst hvv
              exact absurd hlt h4
          · rw [hres]
            simp only [Except.map]
            rw [buildTasks_length]
          · rw [hres]
            simp only [Except.map]
            have hl := buildTasks_lookup_vtworkers vtworkers shardsToSplit 0 0
            rw [List.drop_zero] at hl
            rw [hl]
          · rw [hres]
            simp only [Except.map]
            rw [chunksOf_flatten vtworkers _ h2.symm]
          · rw [hres]
            rfl
    · have hres : initCheckpoint keyspace vtworkers shardsToSplit
          minHealthyRdonlyTablets splitCmd splitDiffDestTabletType
          phaseEnableApprovals skipStartWorkflows
          = Except.error ("there are " ++ toString vtworkers.length ++ " vtworkers, "
              ++ toString (shardsToSplit.map fun p => p.2.length).sum
              ++ " destination shards: the number should be same") := by
        simp only [initCheckpoint, hc]
        rw [if_neg (by simpa using h1), if_pos (by simpa using h2)]
      exact ⟨⟨fun _ => Or.inr (Or.inr (Or.inl h2)), fun _ => ⟨_, hres⟩⟩,
        by rw [hres]; rfl, by rw [hres]; rfl, by rw [hres]; rfl, by rw [hres]; rfl⟩

end keyspaceresharding

namespace actionnode

/-- ActionState is a string type in the source (`type ActionState string`). -/
def ActionState : Type := String

instance : DecidableEq ActionState := fun a b => String.decEq a b

instance : Repr ActionState := inferInstanceAs (Repr String)

/-- Constant `ACTION_STATE_QUEUED`: all actions are queued initially. -/
def ACTION_STATE_QUEUED : ActionState := ""

/-- Constant `ACTION_STATE_RUNNING`: running inside the vtaction process. -/
def ACTION_STATE_RUNNING : ActionState := "Running"

/-- Constant `ACTION_STATE_FAILED`: ended with a failure. -/
def ACTION_STATE_FAILED : ActionState := "Failed"

/-- Constant `ACTION_STATE_DONE`: ended with no failure. -/
def ACTION_STATE_DONE : ActionState := "Done"

/-- Tablet action name constants from the source (RPC-only group). -/
def TABLET_ACTION_SLEEP : String := "Sleep"

/-- Constant `TABLET_ACTION_SET_RDONLY`. -/
def TABLET_ACTION_SET_RDONLY : String := "SetReadOnly"

/-- Constant `TABLET_ACTION_SET_RDWR`. -/
def TABLET_ACTION_SET_RDWR : String := "SetReadWrite"

/-- Constant `TABLET_ACTION_CHANGE_TYPE`. -/
def TABLET_ACTION_CHANGE_TYPE : String := "ChangeType"

/-- Constant `TABLET_ACTION_SCRAP`. -/
def TABLET_ACTION_SCRAP : String := "Scrap"

/-- Constant `TABLET_ACTION_DEMOTE_MASTER`. -/
def TABLET_ACTION_DEMOTE_MASTER : String := "DemoteMaster"

/-- Constant `TABLET_ACTION_PROMOTE_SLAVE`. -/
def TABLET_ACTION_PROMOTE_SLAVE : String := "PromoteSlave"

/-- Constant `TABLET_ACTION_SLAVE_WAS_PROMOTED`. -/
def TABLET_ACTION_SLAVE_WAS_PROMOTED : String := "SlaveWasPromoted"

/-- Constant `TABLET_ACTION_RESTART_SLAVE`. -/
def TABLET_ACTION_RESTART_SLAVE : String := "RestartSlave"

/-- Constant `TABLET_ACTION_SLAVE_WAS_RESTARTED`. -/
def TABLET_ACTION_SLAVE_WAS_RESTARTED : String := "SlaveWasRestarted"

/-- Constant `TABLET_ACTION_BREAK_SLAVES`. -/
def TABLET_ACTION_BREAK_SLAVES : String := "BreakSlaves"

/-- Constant `TABLET_ACTION_STOP_SLAVE`. -/
def TABLET_ACTION_STOP_SLAVE : String := "StopSlave"

/-- Constant `TABLET_ACTION_STOP_SLAVE_MINIMUM`. -/
def TABLET_ACTION_STOP_SLAVE_MINIMUM : String := "StopSlaveMinimum"

/-- Constant `TABLET_ACTION_START_SLAVE`. -/
def TABLET_ACTION_START_SLAVE : String := "StartSlave"

/-- Constant `TABLET_ACTION_EXTERNALLY_REPARENTED`. -/
def TABLET_ACTION_EXTERNALLY_REPARENTED : String := "TabletExternallyReparented"

/-- Constant `TABLET_ACTION_MASTER_POSITION`. -/
def TABLET_ACTION_MASTER_POSITION : String := "MasterPosition"

/-- Constant `TABLET_ACTION_REPARENT_POSITION`. -/
def TABLET_ACTION_REPARENT_POSITION : String := "ReparentPosition"

/-- Constant `TABLET_ACTION_SLAVE_STATUS`. -/
def TABLET_ACTION_SLAVE_STATUS : String := "SlaveStatus"

/-- Constant `TABLET_ACTION_WAIT_SLAVE_POSITION`. -/
def TABLET_ACTION_WAIT_SLAVE_POSITION : String := "WaitSlavePosition"

/-- Constant `TABLET_ACTION_WAIT_BLP_POSITION`. -/
def TABLET_ACTION_WAIT_BLP_POSITION : String := "WaitBlpPosition"

/-- Constant `TABLET_ACTION_STOP_BLP`. -/
def TABLET_ACTION_STOP_BLP : String := "StopBlp"

/-- Constant `TABLET_ACTION_START_BLP`. -/
def TABLET_ACTION_START_BLP : String := "StartBlp"

/-- Constant `TABLET_ACTION_RUN_BLP_UNTIL`. -/
def TABLET_ACTION_RUN_BLP_UNTIL : String := "RunBlpUntil"

/-- Constant `TABLET_ACTION_GET_SCHEMA`. -/
def TABLET_ACTION_GET_SCHEMA : String := "GetSchema"

/-- Constant `TABLET_ACTION_RELOAD_SCHEMA`. -/
def TABLET_ACTION_RELOAD_SCHEMA : String := "ReloadSchema"

/-- Constant `TABLET_ACTION_EXECUTE_FETCH`. -/
def TABLET_ACTION_EXECUTE_FETCH : String := "ExecuteFetch"

/-- Constant `TABLET_ACTION_GET_PERMISSIONS`. -/
def TABLET_ACTION_GET_PERMISSIONS : String := "GetPermissions"

/-- Constant `TABLET_ACTION_GET_SLAVES`. -/
def TABLET_ACTION_GET_SLAVES : String := "GetSlaves"

/-- Constant `TABLET_ACTION_PREFLIGHT_SCHEMA` (ActionNode-only group). -/
def TABLET_ACTION_PREFLIGHT_SCHEMA : String := "PreflightSchema"

/-- Constant `TABLET_ACTION_APPLY_SCHEMA`. -/
def TABLET_ACTION_APPLY_SCHEMA : String := "ApplySchema"

/-- Constant `TABLET_ACTION_EXECUTE_HOOK`. -/
def TABLET_ACTION_EXECUTE_HOOK : String := "ExecuteHook"

/-- Constant `TABLET_ACTION_SNAPSHOT`. -/
def TABLET_ACTION_SNAPSHOT : String := "Snapshot"

/-- Constant `TABLET_ACTION_SNAPSHOT_SOURCE_END`. -/
def TABLET_ACTION_SNAPSHOT_SOURCE_END : String := "SnapshotSourceEnd"

/-- Constant `TABLET_ACTION_RESERVE_FOR_RESTORE`. -/
def TABLET_ACTION_RESERVE_FOR_RESTORE : String := "ReserveForRestore"

/-- Constant `TABLET_ACTION_RESTORE`. -/
def TABLET_ACTION_RESTORE : String := "Restore"

/-- Constant `TABLET_ACTION_MULTI_SNAPSHOT`. -/
def TABLET_ACTION_MULTI_SNAPSHOT : String := "MultiSnapshot"

/-- Constant `TABLET_ACTION_MULTI_RESTORE`. -/
def TABLET_ACTION_MULTI_RESTORE : String := "MultiRestore"

/-- Constant `TABLET_ACTION_PING` (triggered by both RPC and ActionNode). -/
def TABLET_ACTION_PING : String := "Ping"

/-- Shard action name constants (locking-only). -/
def SHARD_ACTION_REPARENT : String := "ReparentShard"

/-- Constant `SHARD_ACTION_EXTERNALLY_REPARENTED`. -/
def SHARD_ACTION_EXTERNALLY_REPARENTED : String := "ShardExternallyReparented"

/-- Constant `SHARD_ACTION_REBUILD`. -/
def SHARD_ACTION_REBUILD : String := "RebuildShard"

/-- Constant `SHARD_ACTION_CHECK`. -/
def SHARD_ACTION_CHECK : String := "CheckShard"

/-- Constant `SHARD_ACTION_APPLY_SCHEMA`. -/
def SHARD_ACTION_APPLY_SCHEMA : String := "ApplySchemaShard"

/-- Constant `SHARD_ACTION_SET_SERVED_TYPES`. -/
def SHARD_ACTION_SET_SERVED_TYPES : String := "SetShardServedTypes"

/-- Constant `SHARD_ACTION_MULTI_RESTORE`. -/
def SHARD_ACTION_MULTI_RESTORE : String := "ShardMultiRestore"

/-- Constant `SHARD_ACTION_MIGRATE_SERVED_TYPES`. -/
def SHARD_ACTION_MIGRATE_SERVED_TYPES : String := "MigrateServedTypes"

/-- Constant `SHARD_ACTION_UPDATE_SHARD`. -/
def SHARD_ACTION_UPDATE_SHARD : String := "UpdateShard"

/-- Keyspace action name constants (locking-only). -/
def KEYSPACE_ACTION_REBUILD : String := "RebuildKeyspace"

/-- Constant `KEYSPACE_ACTION_APPLY_SCHEMA`. -/
def KEYSPACE_ACTION_APPLY_SCHEMA : String := "ApplySchemaKeyspace"

/-- Constant `KEYSPACE_ACTION_SET_SHARDING_INFO`. -/
def KEYSPACE_ACTION_SET_SHARDING_INFO : String := "SetKeyspaceShardingInfo"

/-- Constant `KEYSPACE_ACTION_MIGRATE_SERVED_FROM`. -/
def KEYSPACE_ACTION_MIGRATE_SERVED_FROM : String := "MigrateServedFrom"

/-- Constant `SRV_SHARD_ACTION_REBUILD` (locking-only). -/
def SRV_SHARD_ACTION_REBUILD : String := "RebuildSrvShard"

/-- ActionNode mirrors the serialized fields of the Go `ActionNode`
struct plus the non-serialized `Path`. The non-serialized `Args` and
`Reply` carry typed payloads in Go; only their decode success matters
here, captured by `ArgKind` below. -/
structure ActionNode where
  Action : String
  ActionGuid : String
  Error : String
  State : ActionState
  Pid : Int
  Path : String
deriving DecidableEq, Repr

/-- ArgKind enumerates the payload types the `ActionNodeFromJson` switch
assigns to `node.Args` / `node.Reply`; `anyArg` is the `interface{}`
decode used when the field is nil. -/
inductive ArgKind where
  | stringArg
  | schemaChange
  | schemaChangeResult
  | hookArg
  | hookResult
  | snapshotArgs
  | snapshotReply
  | snapshotSourceEndArgs
  | reserveForRestoreArgs
  | restoreArgs
  | multiSnapshotArgs
  | multiSnapshotReply
  | multiRestoreArgs
  | anyArg
deriving DecidableEq, Repr

/-- JsonDecoder abstracts the `encoding/json` stream decoder: decoding
the leading ActionNode object, and decoding one further value of a given
payload type, each returning the remaining stream on success. -/
structure JsonDecoder where
  decodeNode : String → Option (ActionNode × String)
  decodeValue : ArgKind → String → Option String

/-- actionArgsReply embeds the `switch node.Action` of
`ActionNodeFromJson`: for every action it yields the (args, reply)
payload kinds to decode, or the error the source returns for
locking-only and rpc-only actions and for unrecognized ones. -/
def actionArgsReply (action : String) : Except String (ArgKind × ArgKind) :=
  if action = TABLET_ACTION_PING then
    Except.ok (ArgKind.anyArg, ArgKind.anyArg)
  else if action = TABLET_ACTION_PREFLIGHT_SCHEMA then
    Except.ok (ArgKind.stringArg, ArgKind.schemaChangeResult)
  else if action = TABLET_ACTION_APPLY_SCHEMA then
    Except.ok (ArgKind.schemaChange, ArgKind.schemaChangeResult)
  else if action = TABLET_ACTION_EXECUTE_HOOK then
    Except.ok (ArgKind.hookArg, ArgKind.hookResult)
  else if action = TABLET_ACTION_SNAPSHOT then
    Except.ok (ArgKind.snapshotArgs, ArgKind.snapshotReply)
  else if action = TABLET_ACTION_SNAPSHOT_SOURCE_END then
    Except.ok (ArgKind.snapshotSourceEndArgs, ArgKind.anyArg)
  else if action = TABLET_ACTION_RESERVE_FOR_RESTORE then
    Except.ok (ArgKind.reserveForRestoreArgs, ArgKind.anyArg)
  else if action = TABLET_ACTION_RESTORE then
    Except.ok (ArgKind.restoreArgs, ArgKind.anyArg)
  else if action = TABLET_ACTION_MULTI_SNAPSHOT then
    Except.ok (ArgKind.multiSnapshotArgs, ArgKind.multiSnapshotReply)
  else if action = TABLET_ACTION_MULTI_RESTORE then
    Except.ok (ArgKind.multiRestoreArgs, ArgKind.anyArg)
  else if action = SHARD_ACTION_REPARENT ∨ action = SHARD_ACTION_EXTERNALLY_REPARENTED
      ∨ action = SHARD_ACTION_REBUILD ∨ action = SHARD_ACTION_CHECK
      ∨ action = SHARD_ACTION_APPLY_SCHEMA ∨ action = SHARD_ACTION_SET_SERVED_TYPES
      ∨ action = SHARD_ACTION_MULTI_RESTORE ∨ action = SHARD_ACTION_MIGRATE_SERVED_TYPES
      ∨ action = SHARD_ACTION_UPDATE_SHARD then
    Except.error ("locking-only SHARD action: " ++ action)
  else if action = KEYSPACE_ACTION_REBUILD ∨ action = KEYSPACE_ACTION_APPLY_SCHEMA
      ∨ action = KEYSPACE_ACTION_SET_SHARDING_INFO
      ∨ action = KEYSPACE_ACTION_MIGRATE_SERVED_FROM then
    Except.error ("locking-only KEYSPACE action: " ++ action)
  else if action = SRV_SHARD_ACTION_REBUILD then
    Except.error ("locking-only SRV_SHARD action: " ++ action)
  else if action = TABLET_ACTION_SLEEP ∨ action = TABLET_ACTION_SET_RDONLY
      ∨ action = TABLET_ACTION_SET_RDWR ∨ action = TABLET_ACTION_CHANGE_TYPE
      ∨ action = TABLET_ACTION_SCRAP ∨ action = TABLET_ACTION_GET_SCHEMA
      ∨ action = TABLET_ACTION_RELOAD_SCHEMA ∨ action = TABLET_ACTION_EXECUTE_FETCH
      ∨ action = TABLET_ACTION_GET_PERMISSIONS ∨ action = TABLET_ACTION_SLAVE_STATUS
      ∨ action = TABLET_ACTION_WAIT_SLAVE_POSITION ∨ action = TABLET_ACTION_MASTER_POSITION
      ∨ action = TABLET_ACTION_REPARENT_POSITION ∨ action = TABLET_ACTION_DEMOTE_MASTER
      ∨ action = TABLET_ACTION_PROMOTE_SLAVE ∨ action = TABLET_ACTION_SLAVE_WAS_PROMOTED
      ∨ action = TABLET_ACTION_RESTART_SLAVE ∨ action = TABLET_ACTION_SLAVE_WAS_RESTARTED
      ∨ action = TABLET_ACTION_BREAK_SLAVES ∨ action = TABLET_ACTION_STOP_SLAVE
      ∨ action = TABLET_ACTION_STOP_SLAVE_MINIMUM ∨ action = TABLET_ACTION_START_SLAVE
      ∨ action = TABLET_ACTION_EXTERNALLY_REPARENTED ∨ action = TABLET_ACTION_GET_SLAVES
      ∨ action = TABLET_ACTION_WAIT_BLP_POSITION ∨ action = TABLET_ACTION_STOP_BLP
      ∨ action = TABLET_ACTION_START_BLP ∨ action = TABLET_ACTION_RUN_BLP_UNTIL then
    Except.error ("rpc-only action: " ++ action)
  else
    Except.error ("unrecognized action: " ++ action)

/-- ActionNodeFromJson interprets the data from JSON: decode the node,
set its Path, resolve the args/reply payload types from the action
switch, then decode the args value and the reply value from the rest of
the stream. Any decode failure is an error. -/
def ActionNodeFromJson (D : JsonDecoder) (data path : String) :
    Except String ActionNode :=
  match D.decodeNode data with
  | none => Except.error "decode error"
  | some (node0, rest1) =>
    let node := { node0 with Path := path }
    match actionArgsReply node.Action with
    | Except.error e => Except.error e
    | Except.ok kinds =>
      match D.decodeValue kinds.1 rest1 with
      | none => Except.error "decode error"
      | some rest2 =>
        match D.decodeValue kinds.2 rest2 with
        | none => Except.error "decode error"
        | some _ => Except.ok node

/-- ActionNodeCanBePurged returns true if that ActionNode can be purged
from the topology server: true on bad action data, false only when the
decoded node is in the Running state. -/
def ActionNodeCanBePurged (D : JsonDecoder) (data : String) : Bool :=
  match ActionNodeFromJson D data "" with
  | Except.error _ => true
  | Except.ok actionNode =>
    if actionNode.State = ACTION_STATE_RUNNING then false else true

/-- ActionNodeIsStale returns true if that ActionNode is not Running;
bad action data yields false. -/
def ActionNodeIsStale (D : JsonDecoder) (data : String) : Bool :=
  match ActionNodeFromJson D data "" with
  | Except.error _ => false
  | Except.ok actionNode => decide (¬actionNode.State = ACTION_STATE_RUNNING)

/-- C10: on inputs where `ActionNodeFromJson data ""` errors,
`ActionNodeCanBePurged` returns true while `ActionNodeIsStale` returns
false; when it succeeds, both functions return the same value, namely
whether the decoded node's State differs from ACTION_STATE_RUNNING. -/
theorem canBePurged_isStale_relation (D : JsonDecoder) (data : String) :
    (∀ e, ActionNodeFromJson D data "" = Except.error e →
      ActionNodeCanBePurged D data = true ∧ ActionNodeIsStale D data = false)
    ∧ (∀ n, ActionNodeFromJson D data "" = Except.ok n →
      ActionNodeCanBePurged D data = ActionNodeIsStale D data
        ∧ ActionNodeIsStale D data = decide (¬n.State = ACTION_STATE_RUNNING)) := by
  constructor
  · intro e he
    simp [ActionNodeCanBePurged, ActionNodeIsStale, he]
  · intro n hn
    simp only [ActionNodeCanBePurged, ActionNodeIsStale, hn]
    by_cases h : n.State = ACTION_STATE_RUNNING
    · simp [h]
    · simp [h]

/-- Witness decoder whose node decode always fails, exercising the
error branch of `canBePurged_isStale_relation` at a concrete input. -/
def failingDecoder : JsonDecoder :=
  { decodeNode := fun _ => none, decodeValue := fun _ s => some s }

/-- Witness for C10 at the concrete input "not json" with a decoder that
rejects it. -/
theorem canBePurged_isStale_relation_witness :
    ActionNodeCanBePurged failingDecoder "not json" = true
      ∧ ActionNodeIsStale failingDecoder "not json" = false :=
  (canBePurged_isStale_relation failingDecoder "not json").1 "decode error" rfl

end actionnode

namespace buffer.model

/-- Modelled from the spec: the ShardBuffer implementation (shard_buffer
source file) is not among the provided sources; this namespace models
its state machine from the specification (sections 4.2, 4.3 and 4.4).
BufState is the per-shard state; Draining is transient inside the
atomic drain step and therefore not a resting state of the model. -/
inductive BufState where
  | Idle
  | Buffering
deriving DecidableEq, Repr

/-- Modelled from the spec: one parked caller — its identity and its
arrival timestamp (`enqueuedAt`). -/
structure BufferedRequest where
  rid : Nat
  enqueuedAt : Nat
deriving DecidableEq, Repr

/-- Modelled from the spec: the terminal outcome delivered exactly once
to a parked request. -/
inductive Outcome where
  | Released
  | EvictedBufferFull
  | EvictedWindowExceeded
  | EvictedContextDone
deriving DecidableEq, Repr

/-- Modelled from the spec: what `enqueueAndWait` reports to its caller
at call time — `NotBuffered` (skip or dry-run) or parked in the queue. -/
inductive EnqueueResult where
  | NotBuffered
  | Queued
deriving DecidableEq, Repr

/-- Modelled from the spec: the statistics-sink counters the model
touches, one field per (counter, reason) pair it uses. -/
structure BufStats where
  starts : Nat := 0
  stopsNewMasterSeen : Nat := 0
  requestsBuffered : Nat := 0
  requestsBufferedDryRun : Nat := 0
  requestsDrained : Nat := 0
  requestsEvictedBufferFull : Nat := 0
  requestsSkippedLastFailoverTooRecent : Nat := 0
  utilizationSum : Nat := 0
  utilizationDryRunSum : Nat := 0
deriving DecidableEq, Repr

/-- Modelled from the spec: per keyspace/shard configuration.
`maxBufferSize` is an int greater than 0 per the configuration section. -/
structure BufConfig where
  maxBufferSize : Nat
  minTimeBetweenFailovers : Nat
  dryRunEnabled : Bool
deriving DecidableEq, Repr

/-- Modelled from the spec: the ShardBuffer state for one shard —
state, FIFO queue, episode start, last observed primary term, cooldown
timestamp, the episode dry-run flag, the episode peak queue length, the
dry-run seen count, the counters, and the chronological log of delivered
(request, outcome) events. -/
structure ShardBuffer where
  bstate : BufState := BufState.Idle
  queue : List BufferedRequest := []
  startedAt : Option Nat := none
  lastTerm : Nat := 0
  lastFailoverEndAt : Option Nat := none
  dryRun : Bool := false
  peakQueued : Nat := 0
  seenDryRun : Nat := 0
  stats : BufStats := {}
  events : List (Nat × Outcome) := []
deriving DecidableEq, Repr

/-- Modelled from the spec: the Cooldown Tracker check — the shard's last
failover end is within `minTimeBetweenFailovers` of now. -/
def underCooldown (cfg : BufConfig) (sb : ShardBuffer) (now : Nat) : Bool :=
  match sb.lastFailoverEndAt with
  | none => false
  | some t => decide (now < t + cfg.minTimeBetweenFailovers)

/-- Modelled from the spec: the Idle to Buffering transition — set
`startedAt`, decide `dryRun` for the episode from configuration, reset
the episode measurements, count a start. -/
def startEpisode (cfg : BufConfig) (sb : ShardBuffer) (now : Nat) : ShardBuffer :=
  { sb with
    bstate := BufState.Buffering,
    startedAt := some now,
    dryRun := cfg.dryRunEnabled,
    peakQueued := 0,
    seenDryRun := 0,
    stats := { sb.stats with starts := sb.stats.starts + 1 } }

/-- Modelled from the spec: steps 2 to 4 of the enqueue algorithm while
Buffering — dry-run records `requestsBufferedDryRun` and returns
`NotBuffered` immediately; otherwise a full queue evicts the single
oldest (front) entry with `EvictedBufferFull`, then the request is
appended and the caller parks. -/
def bufferRequest (cfg : BufConfig) (sb : ShardBuffer) (now rid : Nat) :
    EnqueueResult × ShardBuffer :=
  if sb.dryRun then
    (EnqueueResult.NotBuffered,
      { sb with
        seenDryRun := sb.seenDryRun + 1,
        stats := { sb.stats with
          requestsBufferedDryRun := sb.stats.requestsBufferedDryRun + 1 } })
  else
    let sb2 :=
      if sb.queue.length = cfg.maxBufferSize then
        match sb.queue with
        | [] => sb
        | old :: rest =>
          { sb with
            queue := rest,
            events := sb.events ++ [(old.rid, Outcome.EvictedBufferFull)],
            stats := { sb.stats with
              requestsEvictedBufferFull := sb.stats.requestsEvictedBufferFull + 1 } }
      else sb
    let q := sb2.queue ++ [{ rid := rid, enqueuedAt := now }]
    (EnqueueResult.Queued,
      { sb2 with
        queue := q,
        peakQueued := max sb2.peakQueued q.length,
        stats := { sb2.stats with
          requestsBuffered := sb2.stats.requestsBuffered + 1 } })

/-- Modelled from the spec: `enqueueAndWait` — when Idle, the cooldown
check either skips with reason LastFailoverTooRecent or starts a new
episode; then the buffering steps of `bufferRequest` run. -/
def enqueueAndWait (cfg : BufConfig) (sb : ShardBuffer) (now rid : Nat) :
    EnqueueResult × ShardBuffer :=
  if sb.bstate = BufState.Idle then
    if underCooldown cfg sb now then
      (EnqueueResult.NotBuffered,
        { sb with
          stats := { sb.stats with
            requestsSkippedLastFailoverTooRecent :=
              sb.stats.requestsSkippedLastFailoverTooRecent + 1 } })
    else
      bufferRequest cfg (startEpisode cfg sb now) now rid
  else
    bufferRequest cfg sb now rid

/-- Modelled from the spec: `RecordPrimaryObserved` — only a term newer
than any seen drains a Buffering shard; the drain releases every queued
request with outcome Released in FIFO order, counts the NewMasterSeen
stop, accumulates the episode utilization (in percent of
`maxBufferSize`) into the dry-run or the live sum according to the
episode's `dryRun` flag, records the failover end for the cooldown
tracker, and returns to Idle. A call while Idle, or with a stale or
duplicate term, is a no-op. -/
def recordPrimaryObserved (cfg : BufConfig) (sb : ShardBuffer)
    (term now : Nat) : ShardBuffer :=
  if sb.bstate = BufState.Buffering then
    if sb.lastTerm < term then
      { sb with
        bstate := BufState.Idle,
        queue := [],
        startedAt := none,
        lastTerm := term,
        lastFailoverEndAt := some now,
        events := sb.events ++ sb.queue.map (fun r => (r.rid, Outcome.Released)),
        stats := { sb.stats with
          requestsDrained := sb.stats.requestsDrained + sb.queue.length,
          stopsNewMasterSeen := sb.stats.stopsNewMasterSeen + 1,
          utilizationSum := sb.stats.utilizationSum
            + (if sb.dryRun then 0 else 100 * sb.peakQueued / cfg.maxBufferSize),
          utilizationDryRunSum := sb.stats.utilizationDryRunSum
            + (if sb.dryRun then 100 * sb.seenDryRun / cfg.maxBufferSize else 0) } }
    else sb
  else sb

/-- Modelled from the spec: the operations observable on one ShardBuffer —
an enqueue from the request path and a primary observation. -/
inductive BufOp where
  | enq (now rid : Nat)
  | obs (term now : Nat)
deriving DecidableEq, Repr

/-- Modelled from the spec: one step of the ShardBuffer state machine. -/
def bufStep (cfg : BufConfig) (sb : ShardBuffer) : BufOp → ShardBuffer
  | BufOp.enq now rid => (enqueueAndWait cfg sb now rid).2
  | BufOp.obs term now => recordPrimaryObserved cfg sb term now

/-- Modelled from the spec: running a sequence of operations from the
initial (Idle, empty) ShardBuffer. -/
def bufRun (cfg : BufConfig) (ops : List BufOp) : ShardBuffer :=
  ops.foldl (bufStep cfg) {}

theorem bufferRequest_queue_le (cfg : BufConfig) (sb : ShardBuffer)
    (now rid : Nat) (h : 0 < cfg.maxBufferSize)
    (hq : sb.queue.length ≤ cfg.maxBufferSize) :
    (bufferRequest cfg sb now rid).2.queue.length ≤ cfg.maxBufferSize := by
  unfold bufferRequest
  by_cases hd : sb.dryRun
  · simp [hd, hq]
  · by_cases hfull : sb.queue.length = cfg.maxBufferSize
    · cases hql : sb.queue with
      | nil =>
        rw [hql] at hfull
        exact absurd hfull.symm (Nat.ne_of_gt h)
      | cons old rest =>
        rw [hql] at hfull
        simp only [List.length_cons] at hfull
        simp [hd, hfull, hql]
    · have hlt : sb.queue.length < cfg.maxBufferSize :=
        Nat.lt_of_le_of_ne hq hfull
      simp [hd, hfull]
      omega

theorem bufStep_queue_le (cfg : BufConfig) (sb : ShardBuffer) (op : BufOp)
    (h : 0 < cfg.maxBufferSize)
    (hq : sb.queue.length ≤ cfg.maxBufferSize) :
    (bufStep cfg sb op).queue.length ≤ cfg.maxBufferSize := by
  cases op with
  | enq now rid =>
    show (enqueueAndWait cfg sb now rid).2.queue.length ≤ cfg.maxBufferSize
    unfold enqueueAndWait
    by_cases hidle : sb.bstate = BufState.Idle
    · by_cases hcool : underCooldown cfg sb now
      · simp [hidle, hcool, hq]
      · have : (startEpisode cfg sb now).queue.length ≤ cfg.maxBufferSize := hq
        simp [hidle, hcool, bufferRequest_queue_le cfg _ now rid h this]
    · simp [hidle, bufferRequest_queue_le cfg sb now rid h hq]
  | obs term now =>
    show (recordPrimaryObserved cfg sb term now).queue.length ≤ cfg.maxBufferSize
    unfold recordPrimaryObserved
    split_ifs <;> simp [hq]

theorem bufRun_queue_le_aux (cfg : BufConfig) (h : 0 < cfg.maxBufferSize)
    (ops : List BufOp) (sb : ShardBuffer)
    (hq : sb.queue.length ≤ cfg.maxBufferSize) :
    (ops.foldl (bufStep cfg) sb).queue.length ≤ cfg.maxBufferSize := by
  induction ops generalizing sb with
  | nil => exact hq
  | cons op rest ih =>
    exact ih (bufStep cfg sb op) (bufStep_queue_le cfg sb op h hq)

/-- C2: for every reachable ShardBuffer state — any sequence of enqueue
and primary-observation operations from the initial state — the queue
length never exceeds `maxBufferSize`. -/
theorem bounded_queue (cfg : BufConfig) (h : 0 < cfg.maxBufferSize)
    (ops : List BufOp) :
    (bufRun cfg ops).queue.length ≤ cfg.maxBufferSize :=
  bufRun_queue_le_aux cfg h ops {} (by simp)

/-- Witness for C2: a concrete overfilling run against capacity 2. -/
theorem bounded_queue_witness :
    0 < (2 : Nat)
      ∧ (bufRun { maxBufferSize := 2, minTimeBetweenFailovers := 10, dryRunEnabled := false }
          [BufOp.enq 0 1, BufOp.enq 1 2, BufOp.enq 2 3, BufOp.enq 3 4]).queue.length ≤ 2 :=
  ⟨by decide,
    bounded_queue { maxBufferSize := 2, minTimeBetweenFailovers := 10, dryRunEnabled := false }
      (by decide) [BufOp.enq 0 1, BufOp.enq 1 2, BufOp.enq 2 3, BufOp.enq 3 4]⟩

/-- C5: `recordPrimaryObserved` with a term equal to or older than the
last observed term, or called while the buffer is Idle, is a no-op: the
ShardBuffer (queue, state, counters, event log) is unchanged, so no
extra drain occurs and no duplicate stop-reason count happens. -/
theorem recordPrimaryObserved_idempotent (cfg : BufConfig)
    (sb : ShardBuffer) (term now : Nat)
    (h : term ≤ sb.lastTerm ∨ sb.bstate = BufState.Idle) :
    recordPrimaryObserved cfg sb term now = sb := by
  unfold recordPrimaryObserved
  rcases h with h | h
  · by_cases h1 : sb.bstate = BufState.Buffering
    · rw [if_pos h1, if_neg (Nat.not_lt.mpr h)]
    · rw [if_neg h1]
  · rw [if_neg (by simp [h])]

/-- Witness for C5: a duplicate observation of term 4 on an Idle buffer
with last observed term 4 changes nothing. -/
theorem recordPrimaryObserved_idempotent_witness :
    recordPrimaryObserved
        { maxBufferSize := 2, minTimeBetweenFailovers := 10, dryRunEnabled := false }
        { lastTerm := 4 } 4 9
      = { lastTerm := 4 } :=
  recordPrimaryObserved_idempotent _ { lastTerm := 4 } 4 9 (Or.inl (by decide))

/-- C4: an `enqueueAndWait` call during a dry-run episode returns
`NotBuffered` immediately, increments the per-shard dry-run counter
exactly once, and changes nothing else the caller can observe: queue,
event log and state are untouched. -/
theorem enqueueAndWait_dry_run (cfg : BufConfig) (sb : ShardBuffer)
    (now rid : Nat) (hb : sb.bstate = BufState.Buffering)
    (hd : sb.dryRun = true) :
    (enqueueAndWait cfg sb now rid).1 = EnqueueResult.NotBuffered
    ∧ (enqueueAndWait cfg sb now rid).2
        = { sb with
            seenDryRun := sb.seenDryRun + 1,
            stats := { sb.stats with
              requestsBufferedDryRun := sb.stats.requestsBufferedDryRun + 1 } }
    ∧ (enqueueAndWait cfg sb now rid).2.queue = sb.queue
    ∧ (enqueueAndWait cfg sb now rid).2.events = sb.events
    ∧ (enqueueAndWait cfg sb now rid).2.bstate = sb.bstate
    ∧ (enqueueAndWait cfg sb now rid).2.stats.requestsBufferedDryRun
        = sb.stats.requestsBufferedDryRun + 1 := by
  have hres : enqueueAndWait cfg sb now rid
      = (EnqueueResult.NotBuffered,
          { sb with
            seenDryRun := sb.seenDryRun + 1,
            stats := { sb.stats with
              requestsBufferedDryRun := sb.stats.requestsBufferedDryRun + 1 } }) := by
    unfold enqueueAndWait bufferRequest
    rw [if_neg (by simp [hb]), if_pos hd]
  rw [hres]
  exact ⟨rfl, rfl, rfl, rfl, rfl, rfl⟩

/-- Witness for C4: a dry-run enqueue on a concrete Buffering state. -/
theorem enqueueAndWait_dry_run_witness :
    (enqueueAndWait
        { maxBufferSize := 2, minTimeBetweenFailovers := 10, dryRunEnabled := true }
        { bstate := BufState.Buffering, dryRun := true } 5 7).1
      = EnqueueResult.NotBuffered
    ∧ (enqueueAndWait
        { maxBufferSize := 2, minTimeBetweenFailovers := 10, dryRunEnabled := true }
        { bstate := BufState.Buffering, dryRun := true } 5 7).2.stats.requestsBufferedDryRun
      = 1 :=
  ⟨(enqueueAndWait_dry_run _ { bstate := BufState.Buffering, dryRun := true } 5 7
      rfl rfl).1,
   (enqueueAndWait_dry_run _ { bstate := BufState.Buffering, dryRun := true } 5 7
      rfl rfl).2.2.2.2.2⟩

theorem bufferRequest_utilization_unchanged (cfg : BufConfig)
    (sb : ShardBuffer) (now rid : Nat) :
    (bufferRequest cfg sb now rid).2.stats.utilizationSum
        = sb.stats.utilizationSum
      ∧ (bufferRequest cfg sb now rid).2.stats.utilizationDryRunSum
        = sb.stats.utilizationDryRunSum := by
  simp only [bufferRequest]
  by_cases hd : sb.dryRun
  · rw [if_pos hd]
    exact ⟨rfl, rfl⟩
  · rw [if_neg hd]
    cases hql : sb.queue <;> split_ifs <;> exact ⟨rfl, rfl⟩

/-- C7: buffer utilization is accumulated exactly once per completed
episode and nowhere else — `recordPrimaryObserved` adds the episode peak
(in percent of `maxBufferSize`) to `utilizationSum` exactly when it
completes a live episode, and the dry-run seen count to
`utilizationDryRunSum` exactly when it completes a dry-run episode,
while `enqueueAndWait` never changes either sum. -/
theorem utilization_once_per_episode (cfg : BufConfig) (sb : ShardBuffer)
    (term now rid : Nat) :
    (recordPrimaryObserved cfg sb term now).stats.utilizationSum
      = sb.stats.utilizationSum
        + (if sb.bstate = BufState.Buffering ∧ sb.lastTerm < term ∧ sb.dryRun = false
            then 100 * sb.peakQueued / cfg.maxBufferSize else 0)
    ∧ (recordPrimaryObserved cfg sb term now).stats.utilizationDryRunSum
      = sb.stats.utilizationDryRunSum
        + (if sb.bstate = BufState.Buffering ∧ sb.lastTerm < term ∧ sb.dryRun = true
            then 100 * sb.seenDryRun / cfg.maxBufferSize else 0)
    ∧ (enqueueAndWait cfg sb now rid).2.stats.utilizationSum
      = sb.stats.utilizationSum
    ∧ (enqueueAndWait cfg sb now rid).2.stats.utilizationDryRunSum
      = sb.stats.utilizationDryRunSum := by
  refine ⟨?_, ?_, ?_, ?_⟩
  · unfold recordPrimaryObserved
    by_cases hb : sb.bstate = BufState.Buffering
    · by_cases ht : sb.lastTerm < term
      · cases hd : sb.dryRun <;> simp [hb, ht, hd]
      · simp [hb, ht]
    · simp [hb]
  · unfold recordPrimaryObserved
    by_cases hb : sb.bstate = BufState.Buffering
    · by_cases ht : sb.lastTerm < term
      · cases hd : sb.dryRun <;> simp [hb, ht, hd]
      · simp [hb, ht]
    · simp [hb]
  · unfold enqueueAndWait
    by_cases hidle : sb.bstate = BufState.Idle
    · by_cases hcool : underCooldown cfg sb now
      · simp [hidle, hcool]
      · simp only [hidle, hcool, if_pos, if_neg, Bool.false_eq_true,
          not_false_eq_true, if_true, if_false]
        exact (bufferRequest_utilization_unchanged cfg
          (startEpisode cfg sb now) now rid).1
    · simp only [hidle, if_neg, if_false]
      exact (bufferRequest_utilization_unchanged cfg sb now rid).1
  · unfold enqueueAndWait
    by_cases hidle : sb.bstate = BufState.Idle
    · by_cases hcool : underCooldown cfg sb now
      · simp [hidle, hcool]
      · simp only [hidle, hcool, if_pos, if_neg, Bool.false_eq_true,
          not_false_eq_true, if_true, if_false]
        exact (bufferRequest_utilization_unchanged cfg
          (startEpisode cfg sb now) now rid).2
    · simp only [hidle, if_neg, if_false]
      exact (bufferRequest_utilization_unchanged cfg sb now rid).2

/-- C3: FIFO release and evict-front. For a drain (a fresh term observed
while Buffering), two queued requests with r1 arriving strictly before
r2 in a queue ordered by arrival sit at positions i before j, and their
Released events are delivered at positions `events.length + i` before
`events.length + j` of the delivery log — r1's release fires no later
than r2's. For eviction-for-space, a live enqueue into a full queue
evicts exactly the oldest (front) request, appending its
EvictedBufferFull event and keeping the remaining queue in order with
the new request at the back. -/
theorem fifo_release_and_evict_front (cfg : BufConfig) (sb : ShardBuffer)
    (term now i j : Nat) (r1 r2 : BufferedRequest) (sb2 : ShardBuffer)
    (now2 rid2 : Nat) (old : BufferedRequest) (rest : List BufferedRequest)
    (hsort : sb.queue.Pairwise (fun a b => a.enqueuedAt ≤ b.enqueuedAt))
    (hb : sb.bstate = BufState.Buffering)
    (ht : sb.lastTerm < term)
    (hi : sb.queue[i]? = some r1)
    (hj : sb.queue[j]? = some r2)
    (hlt : r1.enqueuedAt < r2.enqueuedAt)
    (hb2 : sb2.bstate = BufState.Buffering)
    (hd2 : sb2.dryRun = false)
    (hq2 : sb2.queue = old :: rest)
    (hfull : sb2.queue.length = cfg.maxBufferSize) :
    i < j
    ∧ (recordPrimaryObserved cfg sb term now).events[sb.events.length + i]?
        = some (r1.rid, Outcome.Released)
    ∧ (recordPrimaryObserved cfg sb term now).events[sb.events.length + j]?
        = some (r2.rid, Outcome.Released)
    ∧ (enqueueAndWait cfg sb2 now2 rid2).2.events
        = sb2.events ++ [(old.rid, Outcome.EvictedBufferFull)]
    ∧ (enqueueAndWait cfg sb2 now2 rid2).2.queue
        = rest ++ [{ rid := rid2, enqueuedAt := now2 }] := by
  obtain ⟨hilen, hig⟩ := List.getElem?_eq_some_iff.mp hi
  obtain ⟨hjlen, hjg⟩ := List.getElem?_eq_some_iff.mp hj
  have hij : i < j := by
    rcases Nat.lt_trichotomy i j with h | h | h
    · exact h
    · subst h
      rw [hig] at hjg
      rw [hjg] at hlt
      exact absurd hlt (Nat.lt_irrefl _)
    · have := (List.pairwise_iff_getElem.mp hsort) j i hjlen hilen h
      rw [hig, hjg] at this
      exact absurd (Nat.lt_of_lt_of_le hlt this) (Nat.lt_irrefl _)
  have hdrain : (recordPrimaryObserved cfg sb term now).events
      = sb.events ++ sb.queue.map (fun r => (r.rid, Outcome.Released)) := by
    unfold recordPrimaryObserved
    rw [if_pos hb, if_pos ht]
  have hrel : ∀ (k : Nat) (r : BufferedRequest) (hk : k < sb.queue.length),
      sb.queue[k] = r →
      (recordPrimaryObserved cfg sb term now).events[sb.events.length + k]?
        = some (r.rid, Outcome.Released) := by
    intro k r hk hkg
    have hks : sb.queue[k]? = some r := List.getElem?_eq_some_iff.mpr ⟨hk, hkg⟩
    rw [hdrain, List.getElem?_append_right (Nat.le_add_right _ _),
      Nat.add_sub_cancel_left, List.getElem?_map, hks]
    rfl
  have hfull2 : rest.length + 1 = cfg.maxBufferSize := by
    rw [hq2] at hfull
    simpa using hfull
  have hev : (enqueueAndWait cfg sb2 now2 rid2).2
      = { sb2 with
          queue := rest ++ [{ rid := rid2, enqueuedAt := now2 }],
          peakQueued := max sb2.peakQueued
            (rest ++ ([{ rid := rid2, enqueuedAt := now2 }] : List BufferedRequest)).length,
          events := sb2.events ++ [(old.rid, Outcome.EvictedBufferFull)],
          stats := { sb2.stats with
            requestsEvictedBufferFull := sb2.stats.requestsEvictedBufferFull + 1,
            requestsBuffered := sb2.stats.requestsBuffered + 1 } } := by
    unfold enqueueAndWait
    rw [if_neg (by simp [hb2])]
    simp only [bufferRequest]
    rw [if_neg (by simp [hd2]), hq2, if_pos (by simpa using hfull2)]
  exact ⟨hij, hrel i r1 hilen hig, hrel j r2 hjlen hjg,
    by rw [hev], by rw [hev]⟩

/-- Witness for C3 on a concrete two-element queue (for the drain part)
and a concrete full buffer of capacity 2 (for the eviction part). -/
theorem fifo_release_and_evict_front_witness :
    0 < 1
      ∧ (recordPrimaryObserved
            { maxBufferSize := 2, minTimeBetweenFailovers := 10, dryRunEnabled := false }
            { bstate := BufState.Buffering,
              queue := [{ rid := 1, enqueuedAt := 3 }, { rid := 2, enqueuedAt := 5 }] }
            1 9).events[0]?
        = some (1, Outcome.Released)
      ∧ (recordPrimaryObserved
            { maxBufferSize := 2, minTimeBetweenFailovers := 10, dryRunEnabled := false }
            { bstate := BufState.Buffering,
              queue := [{ rid := 1, enqueuedAt := 3 }, { rid := 2, enqueuedAt := 5 }] }
            1 9).events[1]?
        = some (2, Outcome.Released)
      ∧ (enqueueAndWait
            { maxBufferSize := 2, minTimeBetweenFailovers := 10, dryRunEnabled := false }
            { bstate := BufState.Buffering,
              queue := [{ rid := 1, enqueuedAt := 3 }, { rid := 2, enqueuedAt := 5 }] }
            7 3).2.events
        = [] ++ [(1, Outcome.EvictedBufferFull)]
      ∧ (enqueueAndWait
            { maxBufferSize := 2, minTimeBetweenFailovers := 10, dryRunEnabled := false }
            { bstate := BufState.Buffering,
              queue := [{ rid := 1, enqueuedAt := 3 }, { rid := 2, enqueuedAt := 5 }] }
            7 3).2.queue
        = [{ rid := 2, enqueuedAt := 5 }] ++ [{ rid := 3, enqueuedAt := 7 }] :=
  fifo_release_and_evict_front
    { maxBufferSize := 2, minTimeBetweenFailovers := 10, dryRunEnabled := false }
    { bstate := BufState.Buffering,
      queue := [{ rid := 1, enqueuedAt := 3 }, { rid := 2, enqueuedAt := 5 }] }
    1 9 0 1 { rid := 1, enqueuedAt := 3 } { rid := 2, enqueuedAt := 5 }
    { bstate := BufState.Buffering,
      queue := [{ rid := 1, enqueuedAt := 3 }, { rid := 2, enqueuedAt := 5 }] }
    7 3 { rid := 1, enqueuedAt := 3 } [{ rid := 2, enqueuedAt := 5 }]
    (by decide) rfl (by decide) (by decide) (by decide) (by decide)
    rfl rfl rfl (by decide)

end buffer.model
